/-
Verification of the Figma REST client (src/services/figma.ts).

Shallow embedding: the HTTP transport, the filesystem and the environment
are modelled as explicit parameters (outcomes and oracles); the pure
request-building, error-translation, node-id normalization, image-response
handling, base64 encoding and debug-log control flow are translated
directly from the source.
-/
import Mathlib

set_option autoImplicit false

/-! ## JS-style primitives used by the source -/

/-- JS string-pattern replace with a single-character pattern: replaces only
the first occurrence, as in nodeId.replace("-", ":"). -/
def replaceFirstChar (pat rep : Char) : List Char → List Char
  | [] => []
  | c :: cs => if c = pat then rep :: cs else c :: replaceFirstChar pat rep cs

/-- The formattedNodeId computation of FigmaService.getNodeImage:
nodeId.replace("-", ":"). -/
def formatNodeId (s : String) : String :=
  String.mk (replaceFirstChar '-' ':' s.data)

/-- JS a || d on an optional string a: the default is taken when a is
undefined or the empty string (both falsy). -/
def jsOrDefault (v : Option String) (d : String) : String :=
  match v with
  | none => d
  | some s => if s = "" then d else s

/-- JS truthiness of an optional string (undefined / null / "" are falsy). -/
def truthyStr : Option String → Bool
  | none => false
  | some s => !(s == "")

/-- JS truthiness of an optional number (undefined and 0 are falsy), as in
the conditional depth ? "?depth=..." : "". -/
def truthyNum : Option Int → Bool
  | none => false
  | some n => !(n == 0)

/-! ## The private request helper (error translation) -/

/-- Body of an HTTP error response, as read by the catch clause:
(error.response.data as \x7b err?: string \x7d).err. -/
structure ErrBody where
  err : Option String
deriving DecidableEq

/-- The three transport outcomes distinguished by the catch clause of
FigmaService.request: a success, an AxiosError carrying a response, or a
failure with no response at all. -/
inductive AxiosOutcome (T : Type) where
  | success (data : T)
  | errorResponse (status : Nat) (body : ErrBody)
  | noResponse

/-- The two kinds of value thrown by FigmaService.request: the structured
object literal \x7b status, err \x7d (typed FigmaError in the source), or the
generic new Error("Failed to make request to Figma API"). -/
inductive RequestError where
  | figmaError (status : Nat) (err : String)
  | genericError (msg : String)
deriving DecidableEq

/-- Discriminator between the two thrown kinds. -/
def RequestError.isFigmaError : RequestError → Bool
  | .figmaError _ _ => true
  | .genericError _ => false

/-- FigmaService.request, with the transport outcome made explicit: returns
response.data on success; on an error response throws the structured error
with the HTTP status and body.err || "Unknown error"; otherwise throws the
generic error. -/
def request {T : Type} (outcome : AxiosOutcome T) : Except RequestError T :=
  match outcome with
  | .success d => .ok d
  | .errorResponse status body =>
      .error (.figmaError status (jsOrDefault body.err "Unknown error"))
  | .noResponse => .error (.genericError "Failed to make request to Figma API")

/-! ## Claim C1 -/

/-- Claim C1: on an HTTP error response the request helper raises the
structured error whose status is the response status and whose message is
the err field of the body, defaulting to "Unknown error" when that field
is empty or missing; with no response it raises the generic failure, and
the two kinds are distinguishable. -/
theorem request_error_translation :
    (∀ (T : Type) (status : Nat) (body : ErrBody),
      @request T (.errorResponse status body) =
        .error (.figmaError status
          (match body.err with
           | none => "Unknown error"
           | some s => if s = "" then "Unknown error" else s)))
  ∧ (∀ (T : Type),
      @request T .noResponse =
        .error (.genericError "Failed to make request to Figma API"))
  ∧ (∀ (status : Nat) (msg : String),
      RequestError.isFigmaError (.figmaError status msg) = true)
  ∧ (∀ (msg : String),
      RequestError.isFigmaError (.genericError msg) = false) := by
  refine ⟨?_, ?_, ?_, ?_⟩
  · intro T status body
    rcases body with ⟨err⟩
    cases err <;> simp [request, jsOrDefault]
  · intro T
    rfl
  · intro status msg
    rfl
  · intro msg
    rfl

/-! ## Claim C2 -/

theorem replaceFirstChar_of_not_mem (pat rep : Char) :
    ∀ (l : List Char), pat ∉ l → replaceFirstChar pat rep l = l := by
  intro l h
  induction l with
  | nil => rfl
  | cons c cs ih =>
    have hc : ¬(c = pat) := by
      intro hEq
      exact h (hEq ▸ List.mem_cons_self c cs)
    have hcs : pat ∉ cs := fun hm => h (List.mem_cons_of_mem c hm)
    simp [replaceFirstChar, hc, ih hcs]

theorem replaceFirstChar_first (pat rep : Char) :
    ∀ (pre suf : List Char), pat ∉ pre →
      replaceFirstChar pat rep (pre ++ pat :: suf) = pre ++ rep :: suf := by
  intro pre
  induction pre with
  | nil =>
    intro suf _
    simp [replaceFirstChar]
  | cons c cs ih =>
    intro suf h
    have hc : ¬(c = pat) := by
      intro hEq
      exact h (hEq ▸ List.mem_cons_self c cs)
    have hcs : pat ∉ cs := fun hm => h (List.mem_cons_of_mem c hm)
    simp [replaceFirstChar, hc, ih suf hcs]

/-- Claim C2: the node identifier passed to getNodeImage has exactly its
first hyphen replaced by a colon (later hyphens are preserved verbatim);
an identifier with no hyphen is left unchanged. -/
theorem formatNodeId_spec :
    (∀ (pre suf : List Char), '-' ∉ pre →
      formatNodeId (String.mk (pre ++ '-' :: suf)) = String.mk (pre ++ ':' :: suf))
  ∧ (∀ (s : String), '-' ∉ s.data → formatNodeId s = s) := by
  constructor
  · intro pre suf h
    simp only [formatNodeId]
    rw [replaceFirstChar_first '-' ':' pre suf h]
  · intro s h
    simp only [formatNodeId]
    rw [replaceFirstChar_of_not_mem '-' ':' s.data h]

/-- Witness for claim C2 at the concrete inputs "123-456" (first hyphen
becomes a colon) and "789" (no hyphen, unchanged). -/
theorem formatNodeId_spec_witness :
    formatNodeId "123-456" = "123:456" ∧ formatNodeId "789" = "789" := by
  constructor
  · have h := formatNodeId_spec.1 ['1', '2', '3'] ['4', '5', '6'] (by decide)
    exact h
  · exact formatNodeId_spec.2 "789" (by decide)

/-! ## Endpoint construction -/

/-- The fixed base URL of FigmaService. -/
def baseUrl : String := "https://api.figma.com/v1"

/-- JS template interpolation of the depth value inside the truthy branch. -/
def numToStr : Option Int → String
  | none => "undefined"
  | some n => toString n

/-- The endpoint built by FigmaService.getFile:
/files/$fileKey plus (depth ? "?depth=" + depth : ""). -/
def getFileEndpoint (fileKey : String) (depth : Option Int) : String :=
  "/files/" ++ fileKey ++
    (if truthyNum depth then "?depth=" ++ numToStr depth else "")

/-- The endpoint built by FigmaService.getNode:
/files/$fileKey/nodes?ids=$nodeId plus (depth ? "&depth=" + depth : ""). -/
def getNodeEndpoint (fileKey nodeId : String) (depth : Option Int) : String :=
  "/files/" ++ fileKey ++ "/nodes?ids=" ++ nodeId ++
    (if truthyNum depth then "&depth=" ++ numToStr depth else "")

/-- The endpoint built by FigmaService.getNodeImage:
/images/$fileKey?ids=$formattedNodeId&scale=1&format=png. -/
def getNodeImageEndpoint (fileKey nodeId : String) : String :=
  "/images/" ++ fileKey ++ "?ids=" ++ formatNodeId nodeId ++ "&scale=1&format=png"

/-! ## Outbound requests (url and headers) -/

/-- An outbound HTTP GET request: its url and its request headers. -/
structure HttpRequest where
  url : String
  headers : List (String × String)
deriving DecidableEq

/-- The credential header attached by the request helper:
"X-Figma-Token": this.apiKey. -/
def tokenHeader (apiKey : String) : String × String :=
  ("X-Figma-Token", apiKey)

/-- The single outbound request issued by one call of the private request
helper: GET baseUrl + endpoint with the credential header. -/
def requestRequests (apiKey endpoint : String) : List HttpRequest :=
  [⟨baseUrl ++ endpoint, [tokenHeader apiKey]⟩]

/-- The outbound requests of one FigmaService.getFile call (one call of the
request helper). -/
def getFileRequests (apiKey fileKey : String) (depth : Option Int) : List HttpRequest :=
  requestRequests apiKey (getFileEndpoint fileKey depth)

/-- The outbound requests of one FigmaService.getNode call. -/
def getNodeRequests (apiKey fileKey nodeId : String) (depth : Option Int) : List HttpRequest :=
  requestRequests apiKey (getNodeEndpoint fileKey nodeId depth)

/-- The outbound requests of one FigmaService.getNodeImage call. -/
def getNodeImageRequests (apiKey fileKey nodeId : String) : List HttpRequest :=
  requestRequests apiKey (getNodeImageEndpoint fileKey nodeId)

/-- The outbound request of one FigmaService.fetchImageData call: a plain
axios.get(imageUrl, responseType arraybuffer) with no headers option, so no
credential header is attached. -/
def fetchImageDataRequests (imageUrl : String) : List HttpRequest :=
  [⟨imageUrl, []⟩]

/-! ## Claim C10 -/

/-- Claim C10: getNode performs no normalization of the node identifier:
its characters are interpolated into the ids query parameter exactly as
supplied (hyphens included), while only getNodeImage applies the
hyphen-to-colon conversion. -/
theorem getNode_id_verbatim :
    (∀ (fileKey nodeId : String) (depth : Option Int),
      (getNodeEndpoint fileKey nodeId depth).data =
        ("/files/" ++ fileKey ++ "/nodes?ids=").data ++ nodeId.data ++
          (if truthyNum depth then "&depth=" ++ numToStr depth else "").data)
  ∧ (∀ (fileKey nodeId : String),
      getNodeImageEndpoint fileKey nodeId =
        "/images/" ++ fileKey ++ "?ids=" ++ formatNodeId nodeId ++ "&scale=1&format=png") := by
  constructor
  · intro fileKey nodeId depth
    simp [getNodeEndpoint, String.data_append, List.append_assoc]
  · intro fileKey nodeId
    rfl

/-! ## Claim C6 (corrected: JS truthiness drops a supplied depth of 0) -/

/-- Counterexample to claim C6 as stated: with a supplied depth argument of
0, getFile issues /files/abc with no depth parameter at all, not
/files/abc?depth=0. -/
theorem getFileEndpoint_depth_zero_counterexample :
    (getFileEndpoint "abc" (some 0) == "/files/abc?depth=0") = false
  ∧ getFileEndpoint "abc" (some 0) = "/files/abc"
  ∧ (getNodeEndpoint "abc" "1:2" (some 0) == "/files/abc/nodes?ids=1:2&depth=0") = false
  ∧ getNodeEndpoint "abc" "1:2" (some 0) = "/files/abc/nodes?ids=1:2" := by
  refine ⟨by decide, by decide, by decide, by decide⟩

/-- Claim C6 amended: getFile requests /files/\x7bid\x7d and getNode requests
/files/\x7bid\x7d/nodes?ids=\x7bnode\x7d, with the depth query parameter appended
exactly when a depth argument is supplied and nonzero (JS truthiness: a
supplied depth of 0 is treated like an absent one). -/
theorem endpoint_depth_spec :
    ∀ (fileKey nodeId : String) (depth : Option Int),
      getFileEndpoint fileKey depth =
        "/files/" ++ fileKey ++
          (match depth with
           | none => ""
           | some v => if v = 0 then "" else "?depth=" ++ toString v)
    ∧ getNodeEndpoint fileKey nodeId depth =
        "/files/" ++ fileKey ++ "/nodes?ids=" ++ nodeId ++
          (match depth with
           | none => ""
           | some v => if v = 0 then "" else "&depth=" ++ toString v) := by
  intro fileKey nodeId depth
  cases depth with
  | none => exact ⟨rfl, rfl⟩
  | some v =>
    by_cases hv : v = 0
    · subst hv
      exact ⟨rfl, rfl⟩
    · constructor
      · simp [getFileEndpoint, truthyNum, numToStr, hv]
      · simp [getNodeEndpoint, truthyNum, numToStr, hv]

/-! ## getNodeImage response handling -/

/-- The GetImagesResponse shape read by getNodeImage: an optional err field
and the images record, modelled as an association list whose value is none
for a null render result. An absent key models an undefined lookup. -/
structure GetImagesResponse where
  err : Option String
  images : List (String × Option String)

/-- JS property lookup response.images[key]: undefined when the key is
absent, otherwise the stored value (possibly null). -/
def lookupImage (images : List (String × Option String)) (key : String) : Option String :=
  match images.lookup key with
  | none => none
  | some v => v

/-- The response handling of FigmaService.getNodeImage after the request
succeeded at the transport level: if (response.err) throw Error(response.err);
imageUrl = response.images[formattedNodeId]; if (!imageUrl) throw the
not-found error; return imageUrl. Errors carry the JS Error message. -/
def getNodeImageResult (nodeId : String) (resp : GetImagesResponse) : Except String String :=
  let formattedNodeId := formatNodeId nodeId
  if truthyStr resp.err then
    .error (resp.err.getD "")
  else
    let imageUrl := lookupImage resp.images formattedNodeId
    if truthyStr imageUrl then
      .ok (imageUrl.getD "")
    else
      .error ("No image URL found for node " ++ formattedNodeId)

/-! ## Claim C3 -/

/-- Claim C3: when the image response body carries a non-empty error field,
getNodeImage fails with exactly that message, for every images mapping in
the same response (the mapping is immaterial). -/
theorem getNodeImage_err_priority :
    ∀ (nodeId msg : String) (images : List (String × Option String)),
      msg ≠ "" →
      getNodeImageResult nodeId ⟨some msg, images⟩ = .error msg := by
  intro nodeId msg images hmsg
  simp [getNodeImageResult, truthyStr, hmsg]

/-- Witness for claim C3: a response with err "render failed" fails with
that message even though the mapping holds a URL for the requested node. -/
theorem getNodeImage_err_priority_witness :
    getNodeImageResult "12-34"
        ⟨some "render failed", [("12:34", some "https://img.example/a.png")]⟩ =
      .error "render failed" :=
  getNodeImage_err_priority "12-34" "render failed"
    [("12:34", some "https://img.example/a.png")] (by decide)

/-! ## Claim C4 -/

/-- Claim C4: with no error field in the image response, getNodeImage fails
with the not-found error naming the normalized node id whenever the lookup
for that id is absent or yields no URL, and returns the mapped URL string
otherwise. -/
theorem getNodeImage_lookup_spec :
    ∀ (nodeId : String) (images : List (String × Option String)),
      (truthyStr (lookupImage images (formatNodeId nodeId)) = false →
        getNodeImageResult nodeId ⟨none, images⟩ =
          .error ("No image URL found for node " ++ formatNodeId nodeId))
    ∧ (∀ (url : String),
        lookupImage images (formatNodeId nodeId) = some url → url ≠ "" →
        getNodeImageResult nodeId ⟨none, images⟩ = .ok url) := by
  intro nodeId images
  constructor
  · intro hfalsy
    cases hl : lookupImage images (formatNodeId nodeId) with
    | none => simp [getNodeImageResult, truthyStr, hl]
    | some s =>
      rw [hl] at hfalsy
      have hs : s = "" := by simpa [truthyStr] using hfalsy
      subst hs
      simp [getNodeImageResult, truthyStr, hl]
  · intro url hlook hurl
    simp [getNodeImageResult, truthyStr, hlook, hurl]

/-- Witness for claim C4: an empty mapping yields the not-found error
naming the normalized id 12:34, and a mapping holding a URL for 12:34
yields that URL. -/
theorem getNodeImage_lookup_spec_witness :
    getNodeImageResult "12-34" ⟨none, []⟩ = .error "No image URL found for node 12:34"
  ∧ getNodeImageResult "12-34" ⟨none, [("12:34", some "https://img.example/a.png")]⟩ =
      .ok "https://img.example/a.png" := by
  constructor
  · have h := (getNodeImage_lookup_spec "12-34" []).1 (by decide)
    simpa using h
  · exact (getNodeImage_lookup_spec "12-34" [("12:34", some "https://img.example/a.png")]).2
      "https://img.example/a.png" (by decide) (by decide)

/-! ## Claim C5 (corrected: fetchImageData sends no credential header) -/

/-- Counterexample to claim C5 as stated: the raw-image fetch operation
fetchImageData issues its outbound request with an empty header list, so
the credential header is not sent on every outbound request of all four
public operations. -/
theorem fetchImageData_no_token_counterexample :
    ((fetchImageDataRequests "https://img.example/a.png").all
      (fun r => r.headers.contains (tokenHeader "my-secret-token"))) = false
  ∧ fetchImageDataRequests "https://img.example/a.png" =
      [⟨"https://img.example/a.png", []⟩] := by
  refine ⟨by decide, rfl⟩

/-- Claim C5 amended: the construction-time credential is sent as the
X-Figma-Token header on every request issued through the private request
helper — hence on every getFile, getNode, and getNodeImage request — while
fetchImageData sends its request with no headers at all; no operation ever
sends a different credential value (immutability holds by construction:
the apiKey field is read-only and never reassigned). -/
theorem token_header_spec :
    ∀ (apiKey fileKey nodeId imageUrl : String) (depth : Option Int),
      ((getFileRequests apiKey fileKey depth).all
        (fun r => r.headers.contains (tokenHeader apiKey))) = true
    ∧ ((getNodeRequests apiKey fileKey nodeId depth).all
        (fun r => r.headers.contains (tokenHeader apiKey))) = true
    ∧ ((getNodeImageRequests apiKey fileKey nodeId).all
        (fun r => r.headers.contains (tokenHeader apiKey))) = true
    ∧ ((fetchImageDataRequests imageUrl).all (fun r => r.headers.isEmpty)) = true := by
  intro apiKey fileKey nodeId imageUrl depth
  refine ⟨?_, ?_, ?_, rfl⟩ <;>
    simp [getFileRequests, getNodeRequests, getNodeImageRequests, requestRequests,
      List.all, List.contains]

/-! ## Debug log writing (writeLogs) -/

/-- The filesystem circumstances writeLogs can meet: whether the working
directory is writable (accessSync), whether the logs directory exists
(existsSync), and whether mkdirSync / writeFileSync succeed. -/
structure FsWorld where
  cwdWritable : Bool
  logsDirExists : Bool
  mkdirOk : Bool
  writeOk : Bool

/-- A filesystem operation attempted by writeLogs, in program order. -/
inductive FsOp where
  | accessCheck
  | existsCheck
  | mkdirLogs
  | writeFile (path : String)
deriving DecidableEq

/-- The body of writeLogs inside its outer try: the early return when
NODE_ENV is not "development" (before any filesystem call), the inner
try/catch around accessSync (a failure is caught and the function returns),
the existsSync / mkdirSync pair, and the writeFileSync call. The Except
result is the exception state reaching the outer catch; the list records
the filesystem operations attempted. -/
def writeLogsBody (nodeEnv : Option String) (w : FsWorld) (name : String) :
    Except String Unit × List FsOp :=
  if nodeEnv ≠ some "development" then
    (.ok (), [])
  else if !w.cwdWritable then
    (.ok (), [.accessCheck])
  else if w.logsDirExists then
    if w.writeOk then
      (.ok (), [.accessCheck, .existsCheck, .writeFile ("logs/" ++ name)])
    else
      (.error "write failed", [.accessCheck, .existsCheck, .writeFile ("logs/" ++ name)])
  else if !w.mkdirOk then
    (.error "mkdir failed", [.accessCheck, .existsCheck, .mkdirLogs])
  else if w.writeOk then
    (.ok (), [.accessCheck, .existsCheck, .mkdirLogs, .writeFile ("logs/" ++ name)])
  else
    (.error "write failed", [.accessCheck, .existsCheck, .mkdirLogs, .writeFile ("logs/" ++ name)])

/-- The outer catch of writeLogs: any exception is swallowed after a
console.debug note. -/
def catchAll : Except String Unit → Except String Unit
  | .ok _ => .ok ()
  | .error _ => .ok ()

/-- writeLogs: its body wrapped in the outer try/catch. -/
def writeLogs (nodeEnv : Option String) (w : FsWorld) (name : String) :
    Except String Unit × List FsOp :=
  let body := writeLogsBody nodeEnv w name
  (catchAll body.1, body.2)

/-! ## Claim C7 -/

/-- Claim C7: writeLogs always returns normally (every exception of its
body is swallowed), and when NODE_ENV is not "development" it performs no
filesystem operation at all. -/
theorem writeLogs_total_and_silent :
    ∀ (nodeEnv : Option String) (w : FsWorld) (name : String),
      (writeLogs nodeEnv w name).1 = .ok ()
    ∧ (nodeEnv ≠ some "development" → (writeLogs nodeEnv w name).2 = []) := by
  intro nodeEnv w name
  constructor
  · cases hb : (writeLogsBody nodeEnv w name).1 with
    | ok u => simp [writeLogs, hb, catchAll]
    | error e => simp [writeLogs, hb, catchAll]
  · intro h
    simp [writeLogs, writeLogsBody, h]

/-- Witness for claim C7: with NODE_ENV unset and every filesystem
operation doomed to fail, writeLogs still returns normally and attempts no
filesystem operation. -/
theorem writeLogs_total_and_silent_witness :
    (Option.none ≠ some "development")
  ∧ (writeLogs none ⟨false, false, false, false⟩ "figma-raw.json").1 = .ok ()
  ∧ (writeLogs none ⟨false, false, false, false⟩ "figma-raw.json").2 = [] := by
  refine ⟨by decide, ?_, ?_⟩
  · exact (writeLogs_total_and_silent none ⟨false, false, false, false⟩ "figma-raw.json").1
  · exact (writeLogs_total_and_silent none ⟨false, false, false, false⟩ "figma-raw.json").2
      (by decide)

/-! ## getFile / getNode result flow -/

/-- The catch clause of getFile: log and rethrow the same value. -/
def jsRethrow {ε α : Type} (x : Except ε α) : Except ε α :=
  match x with
  | .ok v => .ok v
  | .error e => .error e

/-- The result flow of FigmaService.getFile with the transport outcome and
the external transformer made explicit: await the request, apply
parseFigmaFileResponse (which may itself throw), return its value; the
catch rethrows unchanged. The writeLogs calls in between never throw and do
not touch the value (claim C7). -/
def getFileResult {Raw S ε : Type} (fetch : Except ε Raw) (parse : Raw → Except ε S) :
    Except ε S :=
  jsRethrow (fetch.bind fun response => parse response)

/-- The result flow of FigmaService.getNode: same shape, without a
try/catch of its own. -/
def getNodeResult {Raw S ε : Type} (fetch : Except ε Raw) (parse : Raw → Except ε S) :
    Except ε S :=
  fetch.bind fun response => parse response

/-! ## Claim C8 -/

/-- Claim C8: a successful getFile / getNode call returns exactly the value
produced by the external transformer on the raw payload; any transport or
transformation failure is propagated unchanged; and each call issues
exactly one request (no retry). -/
theorem fetch_passthrough :
    ∀ (Raw S ε : Type) (fetch : Except ε Raw) (parse : Raw → Except ε S),
      (∀ (raw : Raw) (s : S), fetch = .ok raw → parse raw = .ok s →
        getFileResult fetch parse = .ok s ∧ getNodeResult fetch parse = .ok s)
    ∧ (∀ (e : ε), fetch = .error e →
        getFileResult fetch parse = .error e ∧ getNodeResult fetch parse = .error e)
    ∧ (∀ (raw : Raw) (e : ε), fetch = .ok raw → parse raw = .error e →
        getFileResult fetch parse = .error e ∧ getNodeResult fetch parse = .error e)
    ∧ (∀ (apiKey fileKey nodeId : String) (depth : Option Int),
        (getFileRequests apiKey fileKey depth).length = 1
      ∧ (getNodeRequests apiKey fileKey nodeId depth).length = 1) := by
  intro Raw S ε fetch parse
  refine ⟨?_, ?_, ?_, ?_⟩
  · intro raw s hf hp
    subst hf
    simp [getFileResult, getNodeResult, jsRethrow, Except.bind, hp]
  · intro e hf
    subst hf
    simp [getFileResult, getNodeResult, jsRethrow, Except.bind]
  · intro raw e hf hp
    subst hf
    simp [getFileResult, getNodeResult, jsRethrow, Except.bind, hp]
  · intro apiKey fileKey nodeId depth
    exact ⟨rfl, rfl⟩

/-- Witness for claim C8 at concrete transport outcomes: a success is
passed through the transformer exactly, and a transport error is
propagated unchanged. -/
theorem fetch_passthrough_witness :
    @getFileResult Nat Nat String (.ok 5) (fun n => .ok (n + 1)) = .ok 6
  ∧ @getNodeResult Nat Nat String (.error "boom") (fun n => .ok n) = .error "boom" := by
  constructor
  · exact ((fetch_passthrough Nat Nat String (.ok 5) (fun n => .ok (n + 1))).1 5 6 rfl rfl).1
  · exact ((fetch_passthrough Nat Nat String (.error "boom") (fun n => .ok n)).2.1 "boom" rfl).2

/-! ## Base64 encoding (Buffer.toString with base64) -/

/-- The base64 alphabet used by Buffer.toString. -/
def b64Chars : List Char :=
  ['A', 'B', 'C', 'D', 'E', 'F', 'G', 'H', 'I', 'J', 'K', 'L', 'M',
   'N', 'O', 'P', 'Q', 'R', 'S', 'T', 'U', 'V', 'W', 'X', 'Y', 'Z',
   'a', 'b', 'c', 'd', 'e', 'f', 'g', 'h', 'i', 'j', 'k', 'l', 'm',
   'n', 'o', 'p', 'q', 'r', 's', 't', 'u', 'v', 'w', 'x', 'y', 'z',
   '0', '1', '2', '3', '4', '5', '6', '7', '8', '9', '+', '/']

/-- The alphabet character of a 6-bit value. -/
def b64Char (n : Nat) : Char :=
  b64Chars.getD n 'A'

/-- The 6-bit value of an alphabet character. -/
def b64Val (c : Char) : Nat :=
  b64Chars.indexOf c

/-- Standard base64 encoding of a byte sequence with padding, as produced
by Buffer.from(data).toString("base64"): each group of three bytes becomes
four alphabet characters; a trailing group of one or two bytes is padded
with = characters. -/
def base64Encode : List Nat → List Char
  | [] => []
  | [a] => [b64Char (a / 4), b64Char (a % 4 * 16), '=', '=']
  | [a, b] => [b64Char (a / 4), b64Char (a % 4 * 16 + b / 16), b64Char (b % 16 * 4), '=']
  | a :: b :: c :: rest =>
      b64Char (a / 4) :: b64Char (a % 4 * 16 + b / 16) ::
        b64Char (b % 16 * 4 + c / 64) :: b64Char (c % 64) :: base64Encode rest

/-- Standard base64 decoding, the inverse direction of the round-trip
stated by the specification: four characters yield three bytes, with the
three padding forms of the final group. -/
def base64Decode : List Char → List Nat
  | c1 :: c2 :: c3 :: c4 :: rest =>
      if c3 = '=' then
        [b64Val c1 * 4 + b64Val c2 / 16]
      else if c4 = '=' then
        [b64Val c1 * 4 + b64Val c2 / 16, b64Val c2 % 16 * 16 + b64Val c3 / 4]
      else
        (b64Val c1 * 4 + b64Val c2 / 16) :: (b64Val c2 % 16 * 16 + b64Val c3 / 4) ::
          (b64Val c3 % 4 * 64 + b64Val c4) :: base64Decode rest
  | _ => []

/-- FigmaService.fetchImageData on the successful transport path: the
binary response body re-encoded as a base64 string. -/
def fetchImageData (bytes : List Nat) : String :=
  String.mk (base64Encode bytes)

/-- Decoding a base64 string back to bytes. -/
def base64DecodeStr (s : String) : List Nat :=
  base64Decode s.data

theorem b64Val_b64Char : ∀ n < 64, b64Val (b64Char n) = n := by decide

theorem b64Char_ne_pad : ∀ n < 64, b64Char n ≠ '=' := by decide

theorem base64_roundtrip :
    ∀ (bs : List Nat), (∀ b ∈ bs, b < 256) → base64Decode (base64Encode bs) = bs := by
  intro bs
  induction bs using base64Encode.induct with
  | case1 =>
    intro _
    rfl
  | case2 a =>
    intro h
    have ha : a < 256 := h a (by simp)
    simp only [base64Encode, base64Decode, if_true]
    rw [b64Val_b64Char (a / 4) (by omega), b64Val_b64Char (a % 4 * 16) (by omega)]
    have h1 : a / 4 * 4 + a % 4 * 16 / 16 = a := by omega
    rw [h1]
  | case3 a b =>
    intro h
    have ha : a < 256 := h a (by simp)
    have hb : b < 256 := h b (by simp)
    simp only [base64Encode, base64Decode, if_true]
    rw [if_neg (b64Char_ne_pad (b % 16 * 4) (by omega))]
    rw [b64Val_b64Char (a / 4) (by omega),
      b64Val_b64Char (a % 4 * 16 + b / 16) (by omega),
      b64Val_b64Char (b % 16 * 4) (by omega)]
    have h1 : a / 4 * 4 + (a % 4 * 16 + b / 16) / 16 = a := by omega
    have h2 : (a % 4 * 16 + b / 16) % 16 * 16 + b % 16 * 4 / 4 = b := by omega
    rw [h1, h2]
  | case4 a b c rest ih =>
    intro h
    have ha : a < 256 := h a (by simp)
    have hb : b < 256 := h b (by simp)
    have hc : c < 256 := h c (by simp)
    have hrest : ∀ x ∈ rest, x < 256 := fun x hx => h x (by simp [hx])
    simp only [base64Encode, base64Decode]
    rw [if_neg (b64Char_ne_pad (b % 16 * 4 + c / 64) (by omega)),
      if_neg (b64Char_ne_pad (c % 64) (by omega))]
    rw [b64Val_b64Char (a / 4) (by omega),
      b64Val_b64Char (a % 4 * 16 + b / 16) (by omega),
      b64Val_b64Char (b % 16 * 4 + c / 64) (by omega),
      b64Val_b64Char (c % 64) (by omega)]
    rw [ih hrest]
    have h1 : a / 4 * 4 + (a % 4 * 16 + b / 16) / 16 = a := by omega
    have h2 : (a % 4 * 16 + b / 16) % 16 * 16 + (b % 16 * 4 + c / 64) / 4 = b := by omega
    have h3 : (b % 16 * 4 + c / 64) % 4 * 64 + c % 64 = c := by omega
    rw [h1, h2, h3]

/-! ## Claim C9 -/

/-- Claim C9: the base64 string returned by fetchImageData decodes back to
exactly the bytes of the binary response body. -/
theorem fetchImageData_roundtrip :
    ∀ (bytes : List Nat), (∀ b ∈ bytes, b < 256) →
      base64DecodeStr (fetchImageData bytes) = bytes := by
  intro bytes h
  simp only [fetchImageData, base64DecodeStr]
  exact base64_roundtrip bytes h

/-- Witness for claim C9 at a concrete body covering all three padding
shapes across its length: five bytes including 0 and 255. -/
theorem fetchImageData_roundtrip_witness :
    base64DecodeStr (fetchImageData [0, 255, 10, 77, 128]) = [0, 255, 10, 77, 128] :=
  fetchImageData_roundtrip [0, 255, 10, 77, 128] (by decide)
